import Mathlib

/-!
Verification of the Cube3D occupancy-field server core
(`src/crates/robocube/server/server.py`).

The pipeline in `generate_occupancy_field` is shallowly embedded here:

* Python integers become `ℕ` / `ℤ` (they are unbounded, so no wrap-around
  modelling is needed);
* floating-point logits, coordinates and colors are idealized as exact
  rationals `ℚ`;
* the float square root `** 0.5` used by the `radial` color policy is
  abstracted as a function parameter `sqrtFn : ℚ → ℚ`;
* the external collaborators (GPT token generator, latent decoder,
  occupancy decoder) are function parameters of the pipeline.
-/

namespace Robocube

/-! ## Flat-index codec

`generate_occupancy_field` (server.py, lines 418-423) converts a flat grid
index into 3D coordinates with `'ij'` indexing, the second axis fastest:

    y = idx % ny
    z = (idx // ny) % nz
    x = idx // (ny * nz)

The flattening direction (spec §3) is `flat = x*(ny*nz) + z*ny + y`.
-/

/-- Decode a flat index into `(x, y, z)` exactly as server.py lines 420-422. -/
def decodeIdx (ny nz idx : ℕ) : ℕ × ℕ × ℕ :=
  (idx / (ny * nz), idx % ny, (idx / ny) % nz)

/-- The flattening map of spec §3: second axis fastest, then third, then first. -/
def flatIndex (ny nz x y z : ℕ) : ℕ :=
  x * (ny * nz) + z * ny + y

theorem flatIndex_decodeIdx (ny nz idx : ℕ) :
    flatIndex ny nz (decodeIdx ny nz idx).1 (decodeIdx ny nz idx).2.1
      (decodeIdx ny nz idx).2.2 = idx := by
  show idx / (ny * nz) * (ny * nz) + (idx / ny) % nz * ny + idx % ny = idx
  rw [← Nat.div_div_eq_div_mul]
  have h1 : idx / ny / nz * (ny * nz) + idx / ny % nz * ny
      = (nz * (idx / ny / nz) + idx / ny % nz) * ny := by ring
  calc idx / ny / nz * (ny * nz) + idx / ny % nz * ny + idx % ny
      = (nz * (idx / ny / nz) + idx / ny % nz) * ny + idx % ny := by rw [h1]
    _ = ny * (idx / ny) + idx % ny := by rw [Nat.div_add_mod (idx / ny) nz]; ring
    _ = idx := Nat.div_add_mod idx ny

theorem decodeIdx_flatIndex (ny nz x y z : ℕ) (hy : y < ny) (hz : z < nz) :
    decodeIdx ny nz (flatIndex ny nz x y z) = (x, y, z) := by
  have hny : 0 < ny := Nat.lt_of_le_of_lt (Nat.zero_le y) hy
  have hnz : 0 < nz := Nat.lt_of_le_of_lt (Nat.zero_le z) hz
  have hE : flatIndex ny nz x y z = y + (x * nz + z) * ny := by
    show x * (ny * nz) + z * ny + y = y + (x * nz + z) * ny
    ring
  have hdiv : flatIndex ny nz x y z / ny = x * nz + z := by
    rw [hE, Nat.add_mul_div_right _ _ hny, Nat.div_eq_of_lt hy, Nat.zero_add]
  have hmod : flatIndex ny nz x y z % ny = y := by
    rw [hE, Nat.add_mul_mod_self_right, Nat.mod_eq_of_lt hy]
  have hxc : flatIndex ny nz x y z / (ny * nz) = x := by
    rw [← Nat.div_div_eq_div_mul, hdiv]
    have h2 : x * nz + z = z + x * nz := by ring
    rw [h2, Nat.add_mul_div_right _ _ hnz, Nat.div_eq_of_lt hz, Nat.zero_add]
  have hzc : flatIndex ny nz x y z / ny % nz = z := by
    rw [hdiv]
    have h2 : x * nz + z = z + x * nz := by ring
    rw [h2, Nat.add_mul_mod_self_right, Nat.mod_eq_of_lt hz]
  unfold decodeIdx
  rw [hxc, hmod, hzc]

theorem flatIndex_lt (nx ny nz x y z : ℕ) (hx : x < nx) (hy : y < ny)
    (hz : z < nz) : flatIndex ny nz x y z < nx * ny * nz := by
  show x * (ny * nz) + z * ny + y < nx * ny * nz
  have h2 : x * nz + z + 1 ≤ nx * nz := by
    calc x * nz + z + 1 = x * nz + (z + 1) := by ring
      _ ≤ x * nz + nz := Nat.add_le_add_left hz _
      _ = (x + 1) * nz := by ring
      _ ≤ nx * nz := mul_le_mul_right' hx nz
  calc x * (ny * nz) + z * ny + y
      < x * (ny * nz) + z * ny + ny := Nat.add_lt_add_left hy _
    _ = (x * nz + z + 1) * ny := by ring
    _ ≤ nx * nz * ny := mul_le_mul_right' h2 ny
    _ = nx * ny * nz := by ring

theorem decodeIdx_lt (nx ny nz idx : ℕ) (h : idx < nx * ny * nz) :
    (decodeIdx ny nz idx).1 < nx ∧ (decodeIdx ny nz idx).2.1 < ny ∧
      (decodeIdx ny nz idx).2.2 < nz := by
  have hpos : 0 < nx * ny * nz := Nat.lt_of_le_of_lt (Nat.zero_le idx) h
  have hnx : 0 < nx := by
    rcases Nat.eq_zero_or_pos nx with h0 | h0
    · subst h0; simp at hpos
    · exact h0
  have hny : 0 < ny := by
    rcases Nat.eq_zero_or_pos ny with h0 | h0
    · subst h0; simp at hpos
    · exact h0
  have hnz : 0 < nz := by
    rcases Nat.eq_zero_or_pos nz with h0 | h0
    · subst h0; simp at hpos
    · exact h0
  refine ⟨?_, Nat.mod_lt idx hny, Nat.mod_lt _ hnz⟩
  show idx / (ny * nz) < nx
  rw [Nat.div_lt_iff_lt_mul (Nat.mul_pos hny hnz)]
  calc idx < nx * ny * nz := h
    _ = nx * (ny * nz) := by ring

/-- C1: for every grid `(n_x, n_y, n_z)` and flat index `idx < n_x*n_y*n_z`,
decoding `idx` via `y = idx % n_y`, `z = (idx / n_y) % n_z`,
`x = idx / (n_y*n_z)` and re-encoding via `x*(n_y*n_z) + z*n_y + y` returns
`idx` exactly, the decoded triple lies in the box
`[0,n_x) × [0,n_y) × [0,n_z)`, and conversely every triple in the box decodes
back from its flat index, which lies in range: the decoding is a bijection
between flat indices and the coordinate box. -/
theorem c1_flat_index_roundtrip_bijection (nx ny nz idx x y z : ℕ)
    (hidx : idx < nx * ny * nz) (hx : x < nx) (hy : y < ny) (hz : z < nz) :
    flatIndex ny nz (decodeIdx ny nz idx).1 (decodeIdx ny nz idx).2.1
        (decodeIdx ny nz idx).2.2 = idx ∧
      ((decodeIdx ny nz idx).1 < nx ∧ (decodeIdx ny nz idx).2.1 < ny ∧
        (decodeIdx ny nz idx).2.2 < nz) ∧
      decodeIdx ny nz (flatIndex ny nz x y z) = (x, y, z) ∧
      flatIndex ny nz x y z < nx * ny * nz :=
  ⟨flatIndex_decodeIdx ny nz idx, decodeIdx_lt nx ny nz idx hidx,
    decodeIdx_flatIndex ny nz x y z hy hz, flatIndex_lt nx ny nz x y z hx hy hz⟩

/-- Concrete instantiation of `c1_flat_index_roundtrip_bijection` on the grid
`(2,3,4)`, flat index 17 and coordinates `(1,2,3)`. -/
theorem c1_flat_index_roundtrip_bijection_witness :
    (17 < 2 * 3 * 4 ∧ 1 < 2 ∧ 2 < 3 ∧ 3 < 4) ∧
      (flatIndex 3 4 (decodeIdx 3 4 17).1 (decodeIdx 3 4 17).2.1
          (decodeIdx 3 4 17).2.2 = 17 ∧
        ((decodeIdx 3 4 17).1 < 2 ∧ (decodeIdx 3 4 17).2.1 < 3 ∧
          (decodeIdx 3 4 17).2.2 < 4) ∧
        decodeIdx 3 4 (flatIndex 3 4 1 2 3) = (1, 2, 3) ∧
        flatIndex 3 4 1 2 3 < 2 * 3 * 4) :=
  ⟨by decide,
    c1_flat_index_roundtrip_bijection 2 3 4 17 1 2 3 (by decide) (by decide)
      (by decide) (by decide)⟩

/-! ## Voxel extractor

Server.py lines 409-423: `occupied_mask = logits_np > threshold`,
`occupied_indices = np.where(occupied_mask)[0]` (ascending flat indices),
then each surviving index is decoded to `(x, y, z)`.
-/

/-- Flat indices whose logit strictly exceeds the threshold, in ascending
order, as computed by `np.where(logits_np > threshold)[0]`
(server.py lines 410-411). Out-of-range reads cannot occur: indices range
over the logit list's length. -/
def occupiedIndices (logits : List ℚ) (threshold : ℚ) : List ℕ :=
  (List.range logits.length).filter fun i => decide (threshold < logits.getD i 0)

/-- The occupied voxel list: each surviving flat index decoded to `(x, y, z)`
in ascending flat-index order (server.py lines 417-423). -/
def occupiedVoxels (logits : List ℚ) (ny nz : ℕ) (threshold : ℚ) :
    List (ℕ × ℕ × ℕ) :=
  (occupiedIndices logits threshold).map (decodeIdx ny nz)

theorem mem_occupiedIndices (logits : List ℚ) (τ : ℚ) (i : ℕ) :
    i ∈ occupiedIndices logits τ ↔ i < logits.length ∧ τ < logits.getD i 0 := by
  simp [occupiedIndices, List.mem_filter, List.mem_range]

theorem occupiedIndices_sorted (logits : List ℚ) (τ : ℚ) :
    List.Sorted (· < ·) (occupiedIndices logits τ) :=
  (List.pairwise_lt_range _).filter _

/-- C2: the extractor's occupied set contains exactly the flat indices whose
logit strictly exceeds the threshold (equality is excluded), and the voxel
triples are emitted by decoding those indices in ascending flat-index
order. -/
theorem c2_extractor_strict_threshold_ascending (logits : List ℚ) (ny nz : ℕ)
    (τ : ℚ) :
    List.Sorted (· < ·) (occupiedIndices logits τ) ∧
      (∀ i : ℕ, i ∈ occupiedIndices logits τ ↔
        i < logits.length ∧ τ < logits.getD i 0) ∧
      (∀ i : ℕ, i < logits.length → logits.getD i 0 = τ →
        i ∉ occupiedIndices logits τ) ∧
      occupiedVoxels logits ny nz τ =
        (occupiedIndices logits τ).map (decodeIdx ny nz) := by
  refine ⟨occupiedIndices_sorted logits τ, mem_occupiedIndices logits τ, ?_, rfl⟩
  intro i _ heq h
  rw [mem_occupiedIndices, heq] at h
  exact lt_irrefl τ h.2

/-- Concrete instantiation of `c2_extractor_strict_threshold_ascending`:
on the logit field `[1, 0, 2]` with threshold `0`, index 1 (logit equal to
the threshold) is excluded and indices `[0, 2]` survive in ascending order. -/
theorem c2_extractor_strict_threshold_ascending_witness :
    occupiedIndices [(1 : ℚ), 0, 2] 0 = [0, 2] ∧
      (1 ∈ occupiedIndices [(1 : ℚ), 0, 2] 0 ↔
        1 < ([(1 : ℚ), 0, 2] : List ℚ).length ∧
          (0 : ℚ) < [(1 : ℚ), 0, 2].getD 1 0) :=
  ⟨by decide, (c2_extractor_strict_threshold_ascending [(1 : ℚ), 0, 2] 3 3 0).2.1 1⟩

/-- C4 as stated is false: on a 3×3×3 point grid (reported resolution
`3 - 1 = 2`) where only the last flat index 26 is occupied, the extractor
returns the voxel `(2, 2, 2)`, whose coordinates are NOT strictly less than
the reported resolution. -/
theorem c4_counterexample_coordinate_at_resolution :
    occupiedVoxels (List.replicate 26 (-1 : ℚ) ++ [1]) 3 3 0 = [(2, 2, 2)] ∧
      ¬((2 : ℕ) < 3 - 1) := by decide

/-- C4 amended: every occupied voxel `(x, y, z)` satisfies
`0 ≤ x, y, z < n` where `n` is the number of sample points per axis — the
coordinates are point indices, so they can equal the reported resolution
`n - 1` (they are bounded by `n`, not by `n - 1`). -/
theorem c4_amended_coordinates_below_point_count (logits : List ℚ)
    (nx ny nz : ℕ) (τ : ℚ) (hlen : logits.length ≤ nx * ny * nz) :
    ∀ v ∈ occupiedVoxels logits ny nz τ,
      v.1 < nx ∧ v.2.1 < ny ∧ v.2.2 < nz := by
  intro v hv
  obtain ⟨i, hi, rfl⟩ := List.mem_map.mp hv
  have hilt : i < logits.length := ((mem_occupiedIndices logits τ i).mp hi).1
  exact decodeIdx_lt nx ny nz i (Nat.lt_of_lt_of_le hilt hlen)

/-- Concrete instantiation of `c4_amended_coordinates_below_point_count` on
the 3×3×3 grid with only flat index 26 occupied. -/
theorem c4_amended_coordinates_below_point_count_witness :
    ((List.replicate 26 (-1 : ℚ) ++ [1]).length ≤ 3 * 3 * 3 ∧
        (2, 2, 2) ∈ occupiedVoxels (List.replicate 26 (-1 : ℚ) ++ [1]) 3 3 0) ∧
      ((2 : ℕ) < 3 ∧ (2 : ℕ) < 3 ∧ (2 : ℕ) < 3) :=
  ⟨⟨by decide, by decide⟩,
    c4_amended_coordinates_below_point_count (List.replicate 26 (-1 : ℚ) ++ [1])
      3 3 3 0 (by decide) (2, 2, 2) (by decide)⟩

/-! ## Batched occupancy query

Server.py lines 394-405: the grid points are processed by
`for i in range(0, num_points, batch_size)`, slicing `grid_points[i:i+B]`,
calling the decoder once per slice and concatenating the per-batch logits.
`batch_size = 100000` (line 395). A step of `0` would raise in Python; the
embedding returns `[]` in that (never exercised) case so that the
definition is total.
-/

/-- The fixed decoder batch size (server.py line 395). -/
def batchSize : ℕ := 100000

/-- Structurally recursive worker for `chunkList`: the fuel argument is an
upper bound on the number of chunks (the list length suffices since every
step consumes at least one element when `0 < B`), so concrete instances
reduce by evaluation. -/
def chunkListAux (B : ℕ) : ℕ → List α → List (List α)
  | _, [] => []
  | 0, _ :: _ => []
  | fuel + 1, x :: xs =>
    (x :: xs).take B :: chunkListAux B fuel ((x :: xs).drop B)

/-- Contiguous chunks of at most `B` points, in order, as produced by the
slicing loop `for i in range(0, num_points, batch_size)`. -/
def chunkList (B : ℕ) (l : List α) : List (List α) :=
  if B = 0 then [] else chunkListAux B l.length l

/-- One decoder invocation per chunk, concatenating the returned logits
(server.py lines 399-404); the decoder collaborator returns one logit per
point, in input order (spec §6), so a batch call is `List.map query`. -/
def batchedQuery (query : α → ℚ) (B : ℕ) (points : List α) : List ℚ :=
  ((chunkList B points).map (List.map query)).flatten

theorem chunkListAux_flatten (B : ℕ) (hB : 0 < B) :
    ∀ (fuel : ℕ) (l : List α), l.length ≤ fuel →
      (chunkListAux B fuel l).flatten = l := by
  intro fuel
  induction fuel with
  | zero =>
    intro l hl
    cases l with
    | nil => rfl
    | cons x xs => simp at hl
  | succ fuel ih =>
    intro l hl
    cases l with
    | nil => rfl
    | cons x xs =>
      show ((x :: xs).take B :: chunkListAux B fuel ((x :: xs).drop B)).flatten
        = x :: xs
      rw [List.flatten_cons, ih _ (by simp at hl ⊢; omega)]
      exact List.take_append_drop _ _

theorem chunkList_flatten (B : ℕ) (hB : 0 < B) (l : List α) :
    (chunkList B l).flatten = l := by
  unfold chunkList
  rw [if_neg (Nat.pos_iff_ne_zero.mp hB)]
  exact chunkListAux_flatten B hB l.length l le_rfl

theorem chunkListAux_mem_length_le (B : ℕ) :
    ∀ (fuel : ℕ) (l : List α), ∀ c ∈ chunkListAux B fuel l, c.length ≤ B := by
  intro fuel
  induction fuel with
  | zero =>
    intro l c hc
    cases l with
    | nil => simp [chunkListAux] at hc
    | cons x xs => simp [chunkListAux] at hc
  | succ fuel ih =>
    intro l c hc
    cases l with
    | nil => simp [chunkListAux] at hc
    | cons x xs =>
      rw [show chunkListAux B (fuel + 1) (x :: xs)
          = (x :: xs).take B :: chunkListAux B fuel ((x :: xs).drop B) from rfl]
        at hc
      rcases List.mem_cons.mp hc with rfl | hc
      · simp [List.length_take_le]
      · exact ih _ c hc

theorem chunkList_mem_length_le (B : ℕ) (l : List α) :
    ∀ c ∈ chunkList B l, c.length ≤ B := by
  unfold chunkList
  split_ifs with h
  · simp
  · exact chunkListAux_mem_length_le B l.length l

theorem chunkListAux_length (B : ℕ) (hB : 0 < B) :
    ∀ (fuel : ℕ) (l : List α), l.length ≤ fuel →
      (chunkListAux B fuel l).length = (l.length + B - 1) / B := by
  intro fuel
  induction fuel with
  | zero =>
    intro l hl
    cases l with
    | nil =>
      show (0 : ℕ) = (0 + B - 1) / B
      exact (Nat.div_eq_of_lt (by omega)).symm
    | cons x xs => simp at hl
  | succ fuel ih =>
    intro l hl
    cases l with
    | nil =>
      show (0 : ℕ) = (0 + B - 1) / B
      exact (Nat.div_eq_of_lt (by omega)).symm
    | cons x xs =>
      show ((x :: xs).take B :: chunkListAux B fuel ((x :: xs).drop B)).length
        = ((x :: xs).length + B - 1) / B
      rw [List.length_cons, ih _ (by simp at hl ⊢; omega)]
      simp only [List.length_drop, List.length_cons]
      rcases Nat.lt_or_ge (xs.length + 1) B with hlt | hge
      · rw [Nat.sub_eq_zero_of_le (Nat.le_of_lt hlt)]
        have hL : (0 + B - 1) / B = 0 := Nat.div_eq_of_lt (by omega)
        have hR : (xs.length + 1 + B - 1) / B = 1 :=
          Nat.div_eq_of_lt_le (by omega) (by omega)
        rw [hL, hR]
      · have h1 : xs.length + 1 + B - 1
            = (xs.length + 1 - B + B - 1) + B := by omega
        rw [h1, Nat.add_div_right _ hB]

theorem chunkList_length (B : ℕ) (hB : 0 < B) (l : List α) :
    (chunkList B l).length = (l.length + B - 1) / B := by
  unfold chunkList
  rw [if_neg (Nat.pos_iff_ne_zero.mp hB)]
  exact chunkListAux_length B hB l.length l le_rfl

theorem batchedQuery_eq_map (query : α → ℚ) (B : ℕ) (hB : 0 < B)
    (points : List α) : batchedQuery query B points = points.map query := by
  rw [batchedQuery, ← List.map_flatten, chunkList_flatten B hB]

/-- C3: the batched occupancy query slices the input point sequence into
contiguous chunks of at most `batchSize = 100000` points, issues exactly
`⌈N/batchSize⌉` decoder calls, and the concatenated logits are the decoder
applied to the points in their original global order (so the output length
equals the input length and the i-th logit belongs to the i-th point). -/
theorem c3_batched_query_chunking_order (points : List (ℚ × ℚ × ℚ))
    (query : ℚ × ℚ × ℚ → ℚ) :
    (chunkList batchSize points).flatten = points ∧
      (∀ c ∈ chunkList batchSize points, c.length ≤ batchSize) ∧
      (chunkList batchSize points).length
        = (points.length + batchSize - 1) / batchSize ∧
      batchedQuery query batchSize points = points.map query ∧
      (batchedQuery query batchSize points).length = points.length := by
  have hB : 0 < batchSize := by decide
  refine ⟨chunkList_flatten batchSize hB points,
    chunkList_mem_length_le batchSize points,
    chunkList_length batchSize hB points,
    batchedQuery_eq_map query batchSize hB points, ?_⟩
  rw [batchedQuery_eq_map query batchSize hB points, List.length_map]

/-- Concrete instantiation of `c3_batched_query_chunking_order` (the inner
universally quantified chunk bound) on a two-point sequence. -/
theorem c3_batched_query_chunking_order_witness :
    (chunkList batchSize [((0 : ℚ), (0 : ℚ), (0 : ℚ)), (1, 1, 1)]).flatten
        = [((0 : ℚ), (0 : ℚ), (0 : ℚ)), (1, 1, 1)] ∧
      batchedQuery (fun _ => (1 : ℚ)) batchSize
          [((0 : ℚ), (0 : ℚ), (0 : ℚ)), (1, 1, 1)]
        = [((0 : ℚ), (0 : ℚ), (0 : ℚ)), (1, 1, 1)].map (fun _ => (1 : ℚ)) :=
  ⟨(c3_batched_query_chunking_order _ fun _ => (1 : ℚ)).1,
    (c3_batched_query_chunking_order _ _).2.2.2.1⟩

/-! ## Colorizer

`generate_voxel_colors` (server.py lines 214-315). Python's `min`/`max`
over a non-empty list are modelled by a fold over the list's elements
(`listMinD`/`listMaxD`, whose default is only reached on the empty list,
which the caller guards against). The unknown-mode fallback logs a warning;
logging is I/O and is not modelled.
-/

/-- Python `min(l)` with a default for the (guarded) empty case. -/
def listMinD {α : Type} [Min α] (d : α) : List α → α
  | [] => d
  | x :: xs => xs.foldl min x

/-- Python `max(l)` with a default for the (guarded) empty case. -/
def listMaxD {α : Type} [Max α] (d : α) : List α → α
  | [] => d
  | x :: xs => xs.foldl max x

theorem le_foldl_max {α : Type} [LinearOrder α] (b : α) (l : List α) :
    b ≤ l.foldl max b := by
  induction l generalizing b with
  | nil => exact le_rfl
  | cons x xs ih => exact le_trans (le_max_left b x) (ih (max b x))

theorem foldl_min_le {α : Type} [LinearOrder α] (b : α) (l : List α) :
    l.foldl min b ≤ b := by
  induction l generalizing b with
  | nil => exact le_rfl
  | cons x xs ih => exact le_trans (ih (min b x)) (min_le_left b x)

theorem mem_le_foldl_max {α : Type} [LinearOrder α] {a : α} {l : List α}
    (ha : a ∈ l) (b : α) : a ≤ l.foldl max b := by
  induction l generalizing b with
  | nil => cases ha
  | cons x xs ih =>
    rcases List.mem_cons.mp ha with rfl | h
    · exact le_trans (le_max_right b a) (le_foldl_max _ xs)
    · exact ih h _

theorem foldl_min_le_mem {α : Type} [LinearOrder α] {a : α} {l : List α}
    (ha : a ∈ l) (b : α) : l.foldl min b ≤ a := by
  induction l generalizing b with
  | nil => cases ha
  | cons x xs ih =>
    rcases List.mem_cons.mp ha with rfl | h
    · exact le_trans (foldl_min_le _ xs) (min_le_right b a)
    · exact ih h _

theorem listMinD_le_mem {α : Type} [LinearOrder α] (d : α) {a : α}
    {l : List α} (ha : a ∈ l) : listMinD d l ≤ a := by
  match l with
  | [] => cases ha
  | x :: xs =>
    show xs.foldl min x ≤ a
    rcases List.mem_cons.mp ha with rfl | h
    · exact foldl_min_le a xs
    · exact foldl_min_le_mem h x

theorem mem_le_listMaxD {α : Type} [LinearOrder α] (d : α) {a : α}
    {l : List α} (ha : a ∈ l) : a ≤ listMaxD d l := by
  match l with
  | [] => cases ha
  | x :: xs =>
    show a ≤ xs.foldl max x
    rcases List.mem_cons.mp ha with rfl | h
    · exact le_foldl_max a xs
    · exact mem_le_foldl_max h x

/-- The `'height'` policy (server.py lines 253-266): the voxel's `y`
coordinate normalized over the occupied min/max, range floored at 1. -/
def heightColors (voxels : List (ℤ × ℤ × ℤ)) (base : ℚ × ℚ × ℚ) :
    List (ℚ × ℚ × ℚ) :=
  let y_min := listMinD 0 (voxels.map fun v => v.2.1)
  let y_max := listMaxD 0 (voxels.map fun v => v.2.1)
  let y_range : ℤ := max (y_max - y_min) 1
  voxels.map fun v =>
    let t : ℚ := ((v.2.1 - y_min : ℤ) : ℚ) / ((y_range : ℤ) : ℚ)
    (min 1 (base.1 * (1/2 + 1/2 * t)),
     min 1 (base.2.1 * (1/2 + 1/2 * t)),
     min 1 (base.2.2 * (1/2 + 1/2 * t)))

/-- The `'radial'` policy (server.py lines 268-292): distance to the grid
center, normalized by the maximum occupied distance floored at 1. -/
def radialColors (voxels : List (ℤ × ℤ × ℤ)) (nx ny nz : ℕ)
    (base : ℚ × ℚ × ℚ) (sqrtFn : ℚ → ℚ) : List (ℚ × ℚ × ℚ) :=
  let center_x : ℚ := (nx : ℚ) / 2
  let center_y : ℚ := (ny : ℚ) / 2
  let center_z : ℚ := (nz : ℚ) / 2
  let dist := fun (v : ℤ × ℤ × ℤ) =>
    sqrtFn (((v.1 : ℚ) - center_x) ^ 2 + ((v.2.1 : ℚ) - center_y) ^ 2 +
      ((v.2.2 : ℚ) - center_z) ^ 2)
  let max_dist : ℚ := max ((voxels.map dist).foldl max 0) 1
  voxels.map fun v =>
    let t : ℚ := dist v / max_dist
    (max 0 (base.1 * (1 - 2/5 * t)),
     max 0 (base.2.1 * (1 - 2/5 * t)),
     max 0 (base.2.2 * (1 - 2/5 * t)))

/-- The `'density'` policy (server.py lines 294-307): the voxel's own logit
normalized over the occupied subset's min/max, range floored at `1e-6`. -/
def densityColors (voxels : List (ℤ × ℤ × ℤ)) (logits_np : List ℚ)
    (indices : List ℕ) (base : ℚ × ℚ × ℚ) : List (ℚ × ℚ × ℚ) :=
  let occupied_logits := indices.map fun i => logits_np.getD i 0
  let logit_min := listMinD 0 occupied_logits
  let logit_max := listMaxD 0 occupied_logits
  let logit_range : ℚ := max (logit_max - logit_min) (1/1000000)
  (List.range voxels.length).map fun i =>
    let t : ℚ := (occupied_logits.getD i 0 - logit_min) / logit_range
    (min 1 (base.1 * (2/5 + 3/5 * t)),
     min 1 (base.2.1 * (2/5 + 3/5 * t)),
     min 1 (base.2.2 * (2/5 + 3/5 * t)))

/-- Embeds `generate_voxel_colors` (server.py lines 214-315), with exact rational
arithmetic in place of floats and `sqrtFn` in place of `** 0.5`. A color is
an `(r, g, b)` triple. -/
def generate_voxel_colors (occupied_voxels : List (ℤ × ℤ × ℤ))
    (logits_np : List ℚ) (occupied_indices : List ℕ) (nx ny nz : ℕ)
    (color_mode : String) (base_color : ℚ × ℚ × ℚ) (sqrtFn : ℚ → ℚ) :
    List (ℚ × ℚ × ℚ) :=
  if occupied_voxels.isEmpty then []
  else if color_mode = "solid" then occupied_voxels.map fun _ => base_color
  else if color_mode = "height" then heightColors occupied_voxels base_color
  else if color_mode = "radial" then
    radialColors occupied_voxels nx ny nz base_color sqrtFn
  else if color_mode = "density" then
    densityColors occupied_voxels logits_np occupied_indices base_color
  else occupied_voxels.map fun _ => base_color

theorem generate_voxel_colors_length (voxels : List (ℤ × ℤ × ℤ))
    (logits_np : List ℚ) (indices : List ℕ) (nx ny nz : ℕ) (mode : String)
    (base : ℚ × ℚ × ℚ) (sqrtFn : ℚ → ℚ) :
    (generate_voxel_colors voxels logits_np indices nx ny nz mode base
      sqrtFn).length = voxels.length := by
  unfold generate_voxel_colors
  split_ifs with h1 h2 h3 h4 h5
  · simp at h1
    simp [h1]
  · simp
  · simp [heightColors]
  · simp [radialColors]
  · simp [densityColors]
  · simp

/-- All three channels of an RGB triple lie in `[0, 1]`. -/
def colorInUnit (c : ℚ × ℚ × ℚ) : Prop :=
  0 ≤ c.1 ∧ c.1 ≤ 1 ∧ 0 ≤ c.2.1 ∧ c.2.1 ≤ 1 ∧ 0 ≤ c.2.2 ∧ c.2.2 ≤ 1

/-- All three channels of a base color lie in `[0, 1]`. -/
def baseInUnit (b : ℚ × ℚ × ℚ) : Prop :=
  0 ≤ b.1 ∧ b.1 ≤ 1 ∧ 0 ≤ b.2.1 ∧ b.2.1 ≤ 1 ∧ 0 ≤ b.2.2 ∧ b.2.2 ≤ 1

theorem ratio_bounds (a lo hi rng : ℚ) (h1 : lo ≤ a) (h2 : a ≤ hi)
    (h3 : hi - lo ≤ rng) (h4 : 0 < rng) :
    0 ≤ (a - lo) / rng ∧ (a - lo) / rng ≤ 1 :=
  ⟨div_nonneg (by linarith) h4.le, (div_le_one h4).mpr (by linarith)⟩

theorem int_ratio_bounds (y lo hi : ℤ) (h1 : lo ≤ y) (h2 : y ≤ hi) :
    0 ≤ ((y - lo : ℤ) : ℚ) / ((max (hi - lo) 1 : ℤ) : ℚ) ∧
      ((y - lo : ℤ) : ℚ) / ((max (hi - lo) 1 : ℤ) : ℚ) ≤ 1 := by
  have hM : (1 : ℤ) ≤ max (hi - lo) 1 := le_max_right _ _
  have hMq : (0 : ℚ) < ((max (hi - lo) 1 : ℤ) : ℚ) := by
    exact_mod_cast lt_of_lt_of_le Int.one_pos hM |>.trans_le le_rfl
  constructor
  · exact div_nonneg (by exact_mod_cast Int.sub_nonneg.mpr h1) hMq.le
  · rw [div_le_one hMq]
    exact_mod_cast le_trans (by omega : y - lo ≤ hi - lo) (le_max_left _ _)

theorem tripleMinBounds (b : ℚ × ℚ × ℚ) (c : ℚ) (hb : baseInUnit b)
    (hc0 : 0 ≤ c) (hc1 : c ≤ 1) :
    colorInUnit (min 1 (b.1 * c), min 1 (b.2.1 * c), min 1 (b.2.2 * c)) := by
  obtain ⟨h1, _, h3, _, h5, _⟩ := hb
  exact ⟨le_min (by norm_num) (mul_nonneg h1 hc0), min_le_left _ _,
    le_min (by norm_num) (mul_nonneg h3 hc0), min_le_left _ _,
    le_min (by norm_num) (mul_nonneg h5 hc0), min_le_left _ _⟩

theorem tripleMaxBounds (b : ℚ × ℚ × ℚ) (c : ℚ) (hb : baseInUnit b)
    (hc1 : c ≤ 1) :
    colorInUnit (max 0 (b.1 * c), max 0 (b.2.1 * c), max 0 (b.2.2 * c)) := by
  obtain ⟨h1, h2, h3, h4, h5, h6⟩ := hb
  refine ⟨le_max_left _ _, max_le (by norm_num) ?_, le_max_left _ _,
    max_le (by norm_num) ?_, le_max_left _ _, max_le (by norm_num) ?_⟩
  · calc b.1 * c ≤ b.1 * 1 := mul_le_mul_of_nonneg_left hc1 h1
      _ ≤ 1 := by rw [mul_one]; exact h2
  · calc b.2.1 * c ≤ b.2.1 * 1 := mul_le_mul_of_nonneg_left hc1 h3
      _ ≤ 1 := by rw [mul_one]; exact h4
  · calc b.2.2 * c ≤ b.2.2 * 1 := mul_le_mul_of_nonneg_left hc1 h5
      _ ≤ 1 := by rw [mul_one]; exact h6

theorem baseTripleBounds (b : ℚ × ℚ × ℚ) (hb : baseInUnit b) : colorInUnit b :=
  hb

theorem heightColors_bounds (voxels : List (ℤ × ℤ × ℤ)) (base : ℚ × ℚ × ℚ)
    (hb : baseInUnit base) :
    ∀ c ∈ heightColors voxels base, colorInUnit c := by
  intro c hc
  simp only [heightColors] at hc
  rcases List.mem_map.mp hc with ⟨v, hv, rfl⟩
  have h1 : listMinD (0 : ℤ) (voxels.map fun v => v.2.1) ≤ v.2.1 :=
    listMinD_le_mem _ (List.mem_map_of_mem _ hv)
  have h2 : v.2.1 ≤ listMaxD (0 : ℤ) (voxels.map fun v => v.2.1) :=
    mem_le_listMaxD _ (List.mem_map_of_mem _ hv)
  obtain ⟨ht0, ht1⟩ := int_ratio_bounds v.2.1 _ _ h1 h2
  exact tripleMinBounds base _ hb (by linarith) (by linarith)

theorem radialColors_bounds (voxels : List (ℤ × ℤ × ℤ)) (nx ny nz : ℕ)
    (base : ℚ × ℚ × ℚ) (sqrtFn : ℚ → ℚ) (hb : baseInUnit base)
    (hsqrt : ∀ q : ℚ, 0 ≤ q → 0 ≤ sqrtFn q) :
    ∀ c ∈ radialColors voxels nx ny nz base sqrtFn, colorInUnit c := by
  intro c hc
  simp only [radialColors] at hc
  rcases List.mem_map.mp hc with ⟨v, hv, rfl⟩
  refine tripleMaxBounds base _ hb ?_
  exact sub_le_self 1 (mul_nonneg (by norm_num)
    (div_nonneg (hsqrt _ (by positivity))
      (le_trans zero_le_one (le_max_right _ _))))

theorem densityColors_bounds (voxels : List (ℤ × ℤ × ℤ)) (logits_np : List ℚ)
    (indices : List ℕ) (base : ℚ × ℚ × ℚ) (hb : baseInUnit base)
    (hlen : voxels.length ≤ indices.length) :
    ∀ c ∈ densityColors voxels logits_np indices base, colorInUnit c := by
  intro c hc
  simp only [densityColors] at hc
  rcases List.mem_map.mp hc with ⟨i, hi, rfl⟩
  rw [List.mem_range] at hi
  have hilen : i < (indices.map fun i => logits_np.getD i 0).length := by
    rw [List.length_map]; exact Nat.lt_of_lt_of_le hi hlen
  have hmem : (indices.map fun i => logits_np.getD i 0).getD i 0 ∈
      indices.map fun i => logits_np.getD i 0 := by
    rw [List.getD_eq_getElem _ _ hilen]
    exact List.getElem_mem hilen
  have h1 := listMinD_le_mem (0 : ℚ) hmem
  have h2 := mem_le_listMaxD (0 : ℚ) hmem
  obtain ⟨ht0, ht1⟩ := ratio_bounds _ _ _ _ h1 h2
    (le_max_left _ _) (lt_of_lt_of_le (by norm_num) (le_max_right _ (1/1000000)))
  exact tripleMinBounds base _ hb (by linarith) (by linarith)

/-- C6: for every color mode (unknown modes fall back to the solid base
color), every occupied voxel list, arbitrary logits and a base color with
channels in `[0,1]`, `generate_voxel_colors` returns exactly one RGB color
per occupied voxel, and every channel of every returned color lies in
`[0,1]` (including the degenerate cases, which are instances of the
universally quantified statement). -/
theorem c6_colorizer_length_and_unit_range (occupied_voxels : List (ℤ × ℤ × ℤ))
    (logits_np : List ℚ) (occupied_indices : List ℕ) (nx ny nz : ℕ)
    (color_mode : String) (base_color : ℚ × ℚ × ℚ) (sqrtFn : ℚ → ℚ)
    (hne : occupied_voxels ≠ [])
    (hlen : occupied_indices.length = occupied_voxels.length)
    (hb : baseInUnit base_color) (hsqrt : ∀ q : ℚ, 0 ≤ q → 0 ≤ sqrtFn q) :
    (generate_voxel_colors occupied_voxels logits_np occupied_indices nx ny nz
        color_mode base_color sqrtFn).length = occupied_voxels.length ∧
      ∀ c ∈ generate_voxel_colors occupied_voxels logits_np occupied_indices
          nx ny nz color_mode base_color sqrtFn, colorInUnit c := by
  refine ⟨generate_voxel_colors_length occupied_voxels logits_np
    occupied_indices nx ny nz color_mode base_color sqrtFn, ?_⟩
  intro c hc
  unfold generate_voxel_colors at hc
  split_ifs at hc with h1 h2 h3 h4 h5
  · simp at hc
  · rcases List.mem_map.mp hc with ⟨v, hv, rfl⟩
    exact baseTripleBounds base_color hb
  · exact heightColors_bounds occupied_voxels base_color hb c hc
  · exact radialColors_bounds occupied_voxels nx ny nz base_color sqrtFn hb
      hsqrt c hc
  · exact densityColors_bounds occupied_voxels logits_np occupied_indices
      base_color hb (le_of_eq hlen.symm) c hc
  · rcases List.mem_map.mp hc with ⟨v, hv, rfl⟩
    exact baseTripleBounds base_color hb

/-- Concrete instantiation of `c6_colorizer_length_and_unit_range`: the
`'density'` policy on a single occupied voxel (all occupied logits equal)
with base color `(1/2, 1/2, 1/2)`. -/
theorem c6_colorizer_length_and_unit_range_witness :
    (([((0 : ℤ), (0 : ℤ), (0 : ℤ))] : List (ℤ × ℤ × ℤ)) ≠ [] ∧
        ([0] : List ℕ).length = [((0 : ℤ), (0 : ℤ), (0 : ℤ))].length ∧
        baseInUnit ((1/2 : ℚ), (1/2 : ℚ), (1/2 : ℚ))) ∧
      ((generate_voxel_colors [((0 : ℤ), (0 : ℤ), (0 : ℤ))] [(5 : ℚ)] [0] 3 3 3
          "density" ((1/2 : ℚ), (1/2 : ℚ), (1/2 : ℚ)) id).length
          = [((0 : ℤ), (0 : ℤ), (0 : ℤ))].length ∧
        ∀ c ∈ generate_voxel_colors [((0 : ℤ), (0 : ℤ), (0 : ℤ))] [(5 : ℚ)] [0]
            3 3 3 "density" ((1/2 : ℚ), (1/2 : ℚ), (1/2 : ℚ)) id,
          colorInUnit c) :=
  ⟨⟨by decide, by decide, by norm_num [baseInUnit]⟩,
    c6_colorizer_length_and_unit_range [((0 : ℤ), (0 : ℤ), (0 : ℤ))] [(5 : ℚ)]
      [0] 3 3 3 "density" ((1/2 : ℚ), (1/2 : ℚ), (1/2 : ℚ)) id (by decide)
      (by decide) (by norm_num [baseInUnit]) (fun q hq => hq)⟩

/-! ## Grid builder (spec-modelled)

The grid construction `generate_dense_grid_points` is imported from the
external `cube3d` package and is not part of this repository's sources;
it is modelled here from spec §3/§4.1: `n = 2^log2(resolution) + 1` sample
points per axis over the fixed box `[-1.05, 1.05]³`, flattened with the
second axis fastest, then the third, then the first.
-/

/-- Fuel-based binary logarithm (structurally recursive so that concrete
values reduce); `log2Aux_eq` ties it to `Nat.log2`. -/
def log2Aux : ℕ → ℕ → ℕ
  | 0, _ => 0
  | fuel + 1, n => if n < 2 then 0 else log2Aux fuel (n / 2) + 1

/-- Modelled from the spec: `resolution_base = log2(resolution)`
(server.py line 382 computes `np.log2(resolution)`, exact on the
power-of-two resolutions the endpoint admits). -/
def resolutionBase (r : ℕ) : ℕ := log2Aux r r

theorem log2Aux_eq (fuel n : ℕ) (h : n ≤ fuel) : log2Aux fuel n = Nat.log2 n := by
  induction fuel generalizing n with
  | zero =>
    have hn : n = 0 := Nat.le_zero.mp h
    subst hn
    rw [log2Aux, Nat.log2, if_neg (by omega)]
  | succ fuel ih =>
    rw [log2Aux, Nat.log2]
    by_cases h2 : n < 2
    · rw [if_pos h2, if_neg (not_le.mpr h2)]
    · rw [if_neg h2, if_pos (Nat.le_of_not_lt h2), ih (n / 2) (by omega)]

/-- Modelled from the spec: points per axis, `n = 2^log2(r) + 1`
(spec §3, §4.1). -/
def gridPointsPerAxis (r : ℕ) : ℕ := 2 ^ resolutionBase r + 1

/-- Modelled from the spec: the ordered sequence of grid index triples of
`generate_dense_grid_points` with `'ij'` indexing — second axis fastest,
then third, then first (spec §3). -/
def gridCoords (nx ny nz : ℕ) : List (ℕ × ℕ × ℕ) :=
  (List.range nx).flatMap fun x =>
    (List.range nz).flatMap fun z =>
      (List.range ny).map fun y => (x, y, z)

/-- Modelled from the spec: the sample coordinate of a grid index triple —
the box `[-1.05, 1.05]` subdivided uniformly with `n` points per axis. -/
def samplePoint (n : ℕ) (ijk : ℕ × ℕ × ℕ) : ℚ × ℚ × ℚ :=
  let step : ℚ := (21 / 10) / ((n - 1 : ℕ) : ℚ)
  (-(21 / 20) + ijk.1 * step, -(21 / 20) + ijk.2.1 * step,
    -(21 / 20) + ijk.2.2 * step)

theorem gridCoords_length (nx ny nz : ℕ) :
    (gridCoords nx ny nz).length = nx * nz * ny := by
  unfold gridCoords
  simp [List.length_flatMap, Function.comp_def, List.map_const', List.sum_replicate]
  ring

/-! ## Occupancy pipeline

`generate_occupancy_field` (server.py lines 318-457). The external
collaborators are parameters: `run_gpt` (token generation — it receives the
seed because the Python code seeds the global RNG that `run_gpt` samples
from, lines 343-348 and 356-362), `decode_indices` (latent decoder) and
`query` (the occupancy decoder, one logit per point, order-preserving per
spec §6). Wall-clock timing (`generation_time_secs`) is not modelled.
-/

/-- Generation metadata (server.py lines 64-68, 452-456); the wall-clock
`generation_time_secs` field is not modelled. -/
structure GenerationMetadata where
  seed_used : Option ℤ
  model_version : String
  deriving DecidableEq

/-- The `OccupancyResult` response body (server.py lines 71-82). -/
structure OccupancyResult where
  resolution : ℕ
  bbox_min : ℚ × ℚ × ℚ
  bbox_max : ℚ × ℚ × ℚ
  occupied_voxels : List (ℕ × ℕ × ℕ)
  voxel_colors : Option (List (ℚ × ℚ × ℚ))
  logits : Option (List ℚ)
  metadata : GenerationMetadata
  deriving DecidableEq

/-- Python truthiness of the optional `color_mode` string in
`if color_mode and occupied_voxels:` (server.py line 429): `None` and the
empty string are falsy. -/
def colorModeTruthy : Option String → Bool
  | none => false
  | some s => !s.isEmpty

/-- Embeds `generate_occupancy_field` (server.py lines 318-457): seed the token
generator, clamp the generated shape ids to the codebook range, decode to a
latent, sample the dense grid, query occupancy in batches, threshold,
decode flat indices to voxels, optionally colorize, and assemble the
result. -/
def generate_occupancy_field {Λ : Type}
    (run_gpt : Option ℤ → String → ℚ → Option ℚ → Option (List ℚ) → List ℤ)
    (num_codes : ℤ) (decode_indices : List ℤ → Λ)
    (query : Λ → ℚ × ℚ × ℚ → ℚ) (model_version : String) (sqrtFn : ℚ → ℚ)
    (prompt : String) (resolution : ℕ) (seed : Option ℤ)
    (guidance_scale : ℚ) (top_p : Option ℚ)
    (bounding_box_xyz : Option (List ℚ)) (threshold : ℚ)
    (include_logits : Bool) (color_mode : Option String)
    (base_color : Option (ℚ × ℚ × ℚ)) : OccupancyResult :=
  let shape_ids := run_gpt seed prompt guidance_scale top_p bounding_box_xyz
  let clamped_ids := shape_ids.map fun i => min (max i 0) (num_codes - 1)
  let latents := decode_indices clamped_ids
  let n := gridPointsPerAxis resolution
  let grid_points := (gridCoords n n n).map (samplePoint n)
  let logits_np := batchedQuery (query latents) batchSize grid_points
  let occupied_indices := occupiedIndices logits_np threshold
  let occupied_voxels := occupied_indices.map (decodeIdx n n)
  let voxel_colors :=
    if colorModeTruthy color_mode && !occupied_voxels.isEmpty then
      some (generate_voxel_colors
        (occupied_voxels.map fun v => ((v.1 : ℤ), (v.2.1 : ℤ), (v.2.2 : ℤ)))
        logits_np occupied_indices n n n (color_mode.getD "")
        (base_color.getD (4/5, 4/5, 4/5)) sqrtFn)
    else none
  { resolution := n - 1
    bbox_min := (-(21/20), -(21/20), -(21/20))
    bbox_max := (21/20, 21/20, 21/20)
    occupied_voxels := occupied_voxels
    voxel_colors := voxel_colors
    logits := if include_logits then some logits_np else none
    metadata := { seed_used := seed, model_version := model_version } }

set_option maxRecDepth 4000 in
theorem pow_resolutionBase_eq (r : ℕ) (h8 : 8 ≤ r) (h256 : r ≤ 256)
    (hp : Nat.land r (r - 1) = 0) : 2 ^ resolutionBase r = r := by
  have H : ∀ m : ℕ, m < 257 → 8 ≤ m → Nat.land m (m - 1) = 0 →
      2 ^ resolutionBase m = m := by decide
  exact H r (by omega) h8 hp

/-- C5: the result's `resolution` always equals the grid's points-per-axis
minus one, and for every valid power-of-two request resolution
`r ∈ [8, 256]` the sampled grid has exactly `(2^log2(r)+1)^3` points
(`= (r+1)^3`) and the reported resolution equals `r`. -/
theorem c5_resolution_reporting {Λ : Type}
    (run_gpt : Option ℤ → String → ℚ → Option ℚ → Option (List ℚ) → List ℤ)
    (num_codes : ℤ) (decode_indices : List ℤ → Λ)
    (query : Λ → ℚ × ℚ × ℚ → ℚ) (model_version : String) (sqrtFn : ℚ → ℚ)
    (prompt : String) (seed : Option ℤ) (guidance_scale : ℚ)
    (top_p : Option ℚ) (bounding_box_xyz : Option (List ℚ)) (threshold : ℚ)
    (include_logits : Bool) (color_mode : Option String)
    (base_color : Option (ℚ × ℚ × ℚ)) (r : ℕ) (h8 : 8 ≤ r) (h256 : r ≤ 256)
    (hp : Nat.land r (r - 1) = 0) :
    (∀ r' : ℕ,
        (generate_occupancy_field run_gpt num_codes decode_indices query
          model_version sqrtFn prompt r' seed guidance_scale top_p
          bounding_box_xyz threshold include_logits color_mode
          base_color).resolution = gridPointsPerAxis r' - 1) ∧
      ((gridCoords (gridPointsPerAxis r) (gridPointsPerAxis r)
            (gridPointsPerAxis r)).map (samplePoint (gridPointsPerAxis r))).length
        = (2 ^ resolutionBase r + 1) ^ 3 ∧
      gridPointsPerAxis r = r + 1 ∧
      (generate_occupancy_field run_gpt num_codes decode_indices query
        model_version sqrtFn prompt r seed guidance_scale top_p
        bounding_box_xyz threshold include_logits color_mode
        base_color).resolution = r := by
  have hpow : 2 ^ resolutionBase r = r := pow_resolutionBase_eq r h8 h256 hp
  refine ⟨fun r' => rfl, ?_, ?_, ?_⟩
  · rw [List.length_map, gridCoords_length]
    show (2 ^ resolutionBase r + 1) * (2 ^ resolutionBase r + 1) *
      (2 ^ resolutionBase r + 1) = (2 ^ resolutionBase r + 1) ^ 3
    ring
  · show 2 ^ resolutionBase r + 1 = r + 1
    rw [hpow]
  · show gridPointsPerAxis r - 1 = r
    rw [gridPointsPerAxis, hpow]
    omega

/-- Concrete instantiation of `c5_resolution_reporting` at `r = 8` with stub
collaborators: the grid has `9³ = 729` points and the reported resolution
is 8. -/
theorem c5_resolution_reporting_witness :
    (8 ≤ 8 ∧ 8 ≤ 256 ∧ Nat.land 8 (8 - 1) = 0) ∧
      ((gridCoords (gridPointsPerAxis 8) (gridPointsPerAxis 8)
            (gridPointsPerAxis 8)).map (samplePoint (gridPointsPerAxis 8))).length
          = (2 ^ resolutionBase 8 + 1) ^ 3 ∧
        gridPointsPerAxis 8 = 8 + 1 ∧
        (generate_occupancy_field (fun _ _ _ _ _ => ([] : List ℤ)) 1
          (fun _ => ()) (fun _ _ => (1 : ℚ)) "cube3d-v0.5" id "p" 8 none 3
          none none 0 false none none).resolution = 8 :=
  ⟨⟨by decide, by decide, by decide⟩,
    ⟨(c5_resolution_reporting (fun _ _ _ _ _ => ([] : List ℤ)) 1 (fun _ => ())
        (fun _ _ => (1 : ℚ)) "cube3d-v0.5" id "p" none 3 none none 0 false
        none none 8 (by decide) (by decide) (by decide)).2.1,
      (c5_resolution_reporting (fun _ _ _ _ _ => ([] : List ℤ)) 1 (fun _ => ())
        (fun _ _ => (1 : ℚ)) "cube3d-v0.5" id "p" none 3 none none 0 false
        none none 8 (by decide) (by decide) (by decide)).2.2.1,
      (c5_resolution_reporting (fun _ _ _ _ _ => ([] : List ℤ)) 1 (fun _ => ())
        (fun _ _ => (1 : ℚ)) "cube3d-v0.5" id "p" none 3 none none 0 false
        none none 8 (by decide) (by decide) (by decide)).2.2.2⟩⟩

/-- C10: the result's `metadata.seed_used` is exactly the request's seed —
the supplied integer when the caller provided one, `none` when it did not;
no substitute seed is ever generated (server.py lines 343-348, 454). -/
theorem c10_seed_reported_verbatim {Λ : Type}
    (run_gpt : Option ℤ → String → ℚ → Option ℚ → Option (List ℚ) → List ℤ)
    (num_codes : ℤ) (decode_indices : List ℤ → Λ)
    (query : Λ → ℚ × ℚ × ℚ → ℚ) (model_version : String) (sqrtFn : ℚ → ℚ)
    (prompt : String) (resolution : ℕ) (seed : Option ℤ)
    (guidance_scale : ℚ) (top_p : Option ℚ)
    (bounding_box_xyz : Option (List ℚ)) (threshold : ℚ)
    (include_logits : Bool) (color_mode : Option String)
    (base_color : Option (ℚ × ℚ × ℚ)) :
    (generate_occupancy_field run_gpt num_codes decode_indices query
      model_version sqrtFn prompt resolution seed guidance_scale top_p
      bounding_box_xyz threshold include_logits color_mode
      base_color).metadata.seed_used = seed := rfl

/-- C9: the reported bounding box is always `±1.05` on each axis
(server.py lines 378-379, 447-448), and the `bounding_box_xyz` request
parameter influences the pipeline only through the token-generation
collaborator `run_gpt` (line 361): if `run_gpt` returns the same tokens for
two bounding-box arguments, the entire results coincide. -/
theorem c9_bbox_constant_and_param_forwarded_only {Λ : Type}
    (run_gpt : Option ℤ → String → ℚ → Option ℚ → Option (List ℚ) → List ℤ)
    (num_codes : ℤ) (decode_indices : List ℤ → Λ)
    (query : Λ → ℚ × ℚ × ℚ → ℚ) (model_version : String) (sqrtFn : ℚ → ℚ)
    (prompt : String) (resolution : ℕ) (seed : Option ℤ)
    (guidance_scale : ℚ) (top_p : Option ℚ)
    (b₁ b₂ : Option (List ℚ)) (threshold : ℚ) (include_logits : Bool)
    (color_mode : Option String) (base_color : Option (ℚ × ℚ × ℚ))
    (hgpt : run_gpt seed prompt guidance_scale top_p b₁ =
      run_gpt seed prompt guidance_scale top_p b₂) :
    (generate_occupancy_field run_gpt num_codes decode_indices query
        model_version sqrtFn prompt resolution seed guidance_scale top_p b₁
        threshold include_logits color_mode base_color).bbox_min
      = (-(21/20), -(21/20), -(21/20)) ∧
    (generate_occupancy_field run_gpt num_codes decode_indices query
        model_version sqrtFn prompt resolution seed guidance_scale top_p b₁
        threshold include_logits color_mode base_color).bbox_max
      = (21/20, 21/20, 21/20) ∧
    generate_occupancy_field run_gpt num_codes decode_indices query
        model_version sqrtFn prompt resolution seed guidance_scale top_p b₁
        threshold include_logits color_mode base_color
      = generate_occupancy_field run_gpt num_codes decode_indices query
        model_version sqrtFn prompt resolution seed guidance_scale top_p b₂
        threshold include_logits color_mode base_color := by
  refine ⟨rfl, rfl, ?_⟩
  unfold generate_occupancy_field
  rw [hgpt]

/-- Concrete instantiation of `c9_bbox_constant_and_param_forwarded_only`
with a constant token generator and the bounding-box arguments `none` and
`some [2, 1, 1]`. -/
theorem c9_bbox_constant_and_param_forwarded_only_witness :
    (generate_occupancy_field (fun _ _ _ _ _ => ([] : List ℤ)) 1 (fun _ => ())
        (fun _ _ => (1 : ℚ)) "cube3d-v0.5" id "p" 2 none 3 none none 0 false
        none none).bbox_min = (-(21/20), -(21/20), -(21/20)) ∧
      generate_occupancy_field (fun _ _ _ _ _ => ([] : List ℤ)) 1 (fun _ => ())
          (fun _ _ => (1 : ℚ)) "cube3d-v0.5" id "p" 2 none 3 none none 0 false
          none none
        = generate_occupancy_field (fun _ _ _ _ _ => ([] : List ℤ)) 1
          (fun _ => ()) (fun _ _ => (1 : ℚ)) "cube3d-v0.5" id "p" 2 none 3 none
          (some [2, 1, 1]) 0 false none none :=
  ⟨(c9_bbox_constant_and_param_forwarded_only (fun _ _ _ _ _ => ([] : List ℤ))
      1 (fun _ => ()) (fun _ _ => (1 : ℚ)) "cube3d-v0.5" id "p" 2 none 3 none
      none (some [2, 1, 1]) 0 false none none rfl).1,
    (c9_bbox_constant_and_param_forwarded_only (fun _ _ _ _ _ => ([] : List ℤ))
      1 (fun _ => ()) (fun _ _ => (1 : ℚ)) "cube3d-v0.5" id "p" 2 none 3 none
      none (some [2, 1, 1]) 0 false none none rfl).2.2⟩

theorem voxelColorsAssembly (occ : List (ℕ × ℕ × ℕ)) (logits : List ℚ)
    (idx : List ℕ) (n : ℕ) (cm : Option String) (bc : Option (ℚ × ℚ × ℚ))
    (sqrtFn : ℚ → ℚ) :
    ((if colorModeTruthy cm && !occ.isEmpty then
        some (generate_voxel_colors
          (occ.map fun v => ((v.1 : ℤ), (v.2.1 : ℤ), (v.2.2 : ℤ))) logits idx
          n n n (cm.getD "") (bc.getD (4/5, 4/5, 4/5)) sqrtFn)
      else none) = none ↔ colorModeTruthy cm = false ∨ occ = []) ∧
    ∀ cs, (if colorModeTruthy cm && !occ.isEmpty then
        some (generate_voxel_colors
          (occ.map fun v => ((v.1 : ℤ), (v.2.1 : ℤ), (v.2.2 : ℤ))) logits idx
          n n n (cm.getD "") (bc.getD (4/5, 4/5, 4/5)) sqrtFn)
      else none) = some cs → cs.length = occ.length := by
  constructor
  · by_cases h1 : colorModeTruthy cm <;> by_cases h2 : occ.isEmpty <;>
      simp_all [List.isEmpty_iff]
  · intro cs hcs
    split_ifs at hcs with h
    rw [Option.some_inj] at hcs
    rw [← hcs, generate_voxel_colors_length, List.length_map]

/-- C7 as stated is false on one point: Python's truthiness check
`if color_mode and occupied_voxels:` treats the empty string as "no color
mode". With `color_mode = some ""` (a requested mode) and a non-empty
occupied set, `voxel_colors` is still `none`. -/
theorem c7_counterexample_empty_string_mode :
    (generate_occupancy_field (fun _ _ _ _ _ => ([] : List ℤ)) 1 (fun _ => ())
        (fun _ _ => (1 : ℚ)) "cube3d-v0.5" id "p" 2 none 3 none none 0 false
        (some "") none).voxel_colors = none ∧
      (generate_occupancy_field (fun _ _ _ _ _ => ([] : List ℤ)) 1 (fun _ => ())
        (fun _ _ => (1 : ℚ)) "cube3d-v0.5" id "p" 2 none 3 none none 0 false
        (some "") none).occupied_voxels ≠ [] := by
  constructor
  · rfl
  · decide

/-- C7 amended: `voxel_colors` is `none` (absent, never an empty list)
exactly when the occupied voxel set is empty or the requested `color_mode`
is falsy — `None` or the empty string, which Python's truthiness check
treats as "no color mode requested"; whenever it is present it holds
exactly one color per occupied voxel, in the same order. -/
theorem c7_amended_colors_presence {Λ : Type}
    (run_gpt : Option ℤ → String → ℚ → Option ℚ → Option (List ℚ) → List ℤ)
    (num_codes : ℤ) (decode_indices : List ℤ → Λ)
    (query : Λ → ℚ × ℚ × ℚ → ℚ) (model_version : String) (sqrtFn : ℚ → ℚ)
    (prompt : String) (resolution : ℕ) (seed : Option ℤ)
    (guidance_scale : ℚ) (top_p : Option ℚ)
    (bounding_box_xyz : Option (List ℚ)) (threshold : ℚ)
    (include_logits : Bool) (color_mode : Option String)
    (base_color : Option (ℚ × ℚ × ℚ)) :
    ((generate_occupancy_field run_gpt num_codes decode_indices query
        model_version sqrtFn prompt resolution seed guidance_scale top_p
        bounding_box_xyz threshold include_logits color_mode
        base_color).voxel_colors = none ↔
      colorModeTruthy color_mode = false ∨
        (generate_occupancy_field run_gpt num_codes decode_indices query
          model_version sqrtFn prompt resolution seed guidance_scale top_p
          bounding_box_xyz threshold include_logits color_mode
          base_color).occupied_voxels = []) ∧
    ∀ cs, (generate_occupancy_field run_gpt num_codes decode_indices query
        model_version sqrtFn prompt resolution seed guidance_scale top_p
        bounding_box_xyz threshold include_logits color_mode
        base_color).voxel_colors = some cs →
      cs.length = (generate_occupancy_field run_gpt num_codes decode_indices
        query model_version sqrtFn prompt resolution seed guidance_scale top_p
        bounding_box_xyz threshold include_logits color_mode
        base_color).occupied_voxels.length :=
  voxelColorsAssembly _ _ _ _ color_mode base_color sqrtFn

/-- Concrete instantiation of `c7_amended_colors_presence` (the forward use
of the second conjunct): with `color_mode = some "height"` and an all-above
threshold field, the color list is present with one color per voxel; here
the all-27-voxel case of a 3×3×3 point grid. -/
theorem c7_amended_colors_presence_witness :
    ∀ cs, (generate_occupancy_field (fun _ _ _ _ _ => ([] : List ℤ)) 1
        (fun _ => ()) (fun _ _ => (1 : ℚ)) "cube3d-v0.5" id "p" 2 none 3 none
        none 0 false (some "height") none).voxel_colors = some cs →
      cs.length = (generate_occupancy_field (fun _ _ _ _ _ => ([] : List ℤ)) 1
        (fun _ => ()) (fun _ _ => (1 : ℚ)) "cube3d-v0.5" id "p" 2 none 3 none
        none 0 false (some "height") none).occupied_voxels.length :=
  (c7_amended_colors_presence (fun _ _ _ _ _ => ([] : List ℤ)) 1 (fun _ => ())
    (fun _ _ => (1 : ℚ)) "cube3d-v0.5" id "p" 2 none 3 none none 0 false
    (some "height") none).2

/-! ## Endpoint validation

Server.py lines 43-61 (pydantic `Field` constraints, enforced by FastAPI
before the handler body runs, HTTP 422) and lines 490-530 (the
`/generate_occupancy` handler: models-loaded check → HTTP 503, power-of-two
check → HTTP 400, then the pipeline; pipeline exceptions map to HTTP 500,
not modelled since the embedded pipeline is total).
-/

/-- The error classes the endpoint can reject a request with. -/
inductive ApiError where
  | unavailable (detail : String)
  | unprocessable
  | badRequest (detail : String)
  deriving DecidableEq

/-- Whether an error is reported as a client-input error (HTTP 4xx). -/
def ApiError.isClientInput : ApiError → Bool
  | .unavailable _ => false
  | .unprocessable => true
  | .badRequest _ => true

/-- The `/generate_occupancy` request body (server.py lines 43-61). -/
structure OccupancyRequest where
  prompt : String
  seed : Option ℤ := none
  grid_resolution : ℤ := 64
  guidance_scale : ℚ := 3
  top_p : Option ℚ := none
  bounding_box_xyz : Option (List ℚ) := none
  threshold : ℚ := 0
  include_logits : Bool := false
  color_mode : Option String := none
  base_color : Option (List ℚ) := none
  deriving DecidableEq

/-- The declarative pydantic `Field` range constraints (server.py
lines 43-61): `grid_resolution ∈ [8, 256]`, `guidance_scale ∈ [0, 20]`,
`top_p ∈ [0, 1]` when present. `threshold` carries no range constraint. -/
def requestParamsValid (r : OccupancyRequest) : Bool :=
  decide (8 ≤ r.grid_resolution) && decide (r.grid_resolution ≤ 256) &&
    decide (0 ≤ r.guidance_scale) && decide (r.guidance_scale ≤ 20) &&
    (match r.top_p with
     | none => true
     | some p => decide (0 ≤ p) && decide (p ≤ 1))

/-- The power-of-two check of server.py line 506:
`grid_resolution & (grid_resolution - 1) == 0` (on the nonnegative values
admitted by the pydantic range validation). -/
def isPowerOfTwoCheck (r : ℤ) : Bool :=
  decide (Nat.land r.toNat (r.toNat - 1) = 0)

/-- The `/generate_occupancy` handler (server.py lines 490-530),
parameterized over the loaded state and the pipeline; the pipeline runs
only after pydantic validation, the models-loaded check and the
power-of-two check all pass. -/
def generate_occupancy (models_loaded : Bool)
    (pipeline : OccupancyRequest → OccupancyResult)
    (req : OccupancyRequest) : Except ApiError OccupancyResult :=
  if !requestParamsValid req then .error .unprocessable
  else if !models_loaded then
    .error (.unavailable "Models still loading or failed to load")
  else if !isPowerOfTwoCheck req.grid_resolution then
    .error (.badRequest "grid_resolution must be a power of 2")
  else .ok (pipeline req)

/-- C8: a request whose `grid_resolution` is not a power of two or whose
range-validated parameters (`grid_resolution`, `guidance_scale`, `top_p`)
lie outside their documented ranges is rejected before the occupancy
pipeline starts: the handler returns an error in every server state, the
result never depends on the pipeline (so no grid is built and no decoder
query is made), and on an operational server the rejection is a
client-input error. (`threshold` has no documented range constraint, so no
threshold value is out of range.) -/
theorem c8_invalid_rejected_before_pipeline (req : OccupancyRequest)
    (hbad : requestParamsValid req = false ∨
      isPowerOfTwoCheck req.grid_resolution = false) :
    (∀ (loaded : Bool) (pl : OccupancyRequest → OccupancyResult),
        ∃ e, generate_occupancy loaded pl req = .error e) ∧
      (∀ (loaded : Bool) (pl₁ pl₂ : OccupancyRequest → OccupancyResult),
        generate_occupancy loaded pl₁ req = generate_occupancy loaded pl₂ req) ∧
      (∀ pl : OccupancyRequest → OccupancyResult,
        ∃ e, generate_occupancy true pl req = .error e ∧
          e.isClientInput = true) := by
  refine ⟨?_, ?_, ?_⟩
  · intro loaded pl
    cases hv : requestParamsValid req with
    | false => exact ⟨.unprocessable, by simp [generate_occupancy, hv]⟩
    | true =>
      cases loaded with
      | false =>
        exact ⟨.unavailable "Models still loading or failed to load",
          by simp [generate_occupancy, hv]⟩
      | true =>
        rcases hbad with h | h
        · simp [h] at hv
        · exact ⟨.badRequest "grid_resolution must be a power of 2",
            by simp [generate_occupancy, hv, h]⟩
  · intro loaded pl₁ pl₂
    cases hv : requestParamsValid req with
    | false => simp [generate_occupancy, hv]
    | true =>
      cases loaded with
      | false => simp [generate_occupancy, hv]
      | true =>
        rcases hbad with h | h
        · simp [h] at hv
        · simp [generate_occupancy, hv, h]
  · intro pl
    cases hv : requestParamsValid req with
    | false => exact ⟨.unprocessable, by simp [generate_occupancy, hv], rfl⟩
    | true =>
      rcases hbad with h | h
      · simp [h] at hv
      · exact ⟨.badRequest "grid_resolution must be a power of 2",
          by simp [generate_occupancy, hv, h], rfl⟩

/-- Concrete instantiation of `c8_invalid_rejected_before_pipeline`:
`grid_resolution = 12` (in range but not a power of two) is rejected in
every server state, independently of the pipeline, as a client-input error
when the server is operational. -/
theorem c8_invalid_rejected_before_pipeline_witness :
    (requestParamsValid { prompt := "p", grid_resolution := 12 } = false ∨
        isPowerOfTwoCheck
          ({ prompt := "p", grid_resolution := 12 } :
            OccupancyRequest).grid_resolution = false) ∧
      ∀ pl : OccupancyRequest → OccupancyResult,
        ∃ e, generate_occupancy true pl { prompt := "p", grid_resolution := 12 }
            = .error e ∧ e.isClientInput = true :=
  ⟨Or.inr (by decide),
    (c8_invalid_rejected_before_pipeline { prompt := "p", grid_resolution := 12 }
      (Or.inr (by decide))).2.2⟩

end Robocube
